import Mathlib

/-!
A shallow embedding of the album CRUD service (`web-service-gin`): the
`Album` record, the three pure validators from `validators.go`, and the
four collection operations from `handlers.go` (`postAlbums`,
`getAlbumByID`, `deleteAlbumByID`, `patchAlbumByID`).

Modelling conventions:
* The global slice `albums` becomes an explicit `List Album` threaded
  through each operation, which returns the handler's response together
  with the new collection state.
* Go's `float64` price is embedded as `ℚ`: the handlers only compare
  prices with `0` and copy them, never compute with them, so an exact
  ordered field is order- and equality-faithful for every literal that
  appears.  Decimal prices are written with `mkRat`.
* Go's `len(s)` (byte length) is embedded as `String.length`; the two
  agree on every ASCII string, and all literals in the repository are
  ASCII.
* `c.ShouldBindJSON` is embedded as a `DecodeResult` argument: the JSON
  layer either delivers a decoded record or a decoder error message.
* `uuid.New().String()` is embedded as an explicit `freshId` argument to
  `postAlbums`; freshness and non-emptiness of generated ids become
  hypotheses where a claim needs them.
-/

namespace AlbumApi

/-- The album record.  Modelled from the spec: the `Album` struct itself
(`models.go`) is not among the provided sources, but the spec's data
model section and every handler fix its shape: string `id`, `title`,
`artist` and a numeric `price`. -/
structure Album where
  id : String
  title : String
  artist : String
  price : ℚ
  deriving DecidableEq, Repr

/-- Outcome of the JSON decoding layer (`c.ShouldBindJSON`): either a
decoded value or the decoder's error message. -/
inductive DecodeResult (α : Type) where
  | ok (value : α)
  | err (details : String)
  deriving DecidableEq, Repr

/-- Function `validateTitle` from `validators.go`: required titles must be
non-empty, and any non-empty title must have length in [2,100]. -/
def validateTitle (title : String) (required : Bool) : String :=
  if required ∧ title = "" then
    "Title is required"
  else if title ≠ "" ∧ (title.length < 2 ∨ title.length > 100) then
    "Title must be between 2 and 100 characters"
  else
    ""

/-- Function `validateArtist` from `validators.go`: same structure as
`validateTitle`, substituting "Artist". -/
def validateArtist (artist : String) (required : Bool) : String :=
  if required ∧ artist = "" then
    "Artist is required"
  else if artist ≠ "" ∧ (artist.length < 2 ∨ artist.length > 100) then
    "Artist must be between 2 and 100 characters"
  else
    ""

/-- Function `validatePrice` from `validators.go`: required prices must be > 0,
and no price may be negative. -/
def validatePrice (price : ℚ) (required : Bool) : String :=
  if required ∧ price ≤ 0 then
    "Price is required and must be greater than 0"
  else if price < 0 then
    "Price must be greater than or equal to 0"
  else
    ""

/-- Response of `postAlbums` (POST /albums). -/
inductive CreateResult where
  /-- HTTP 201 with the stored album. -/
  | created (album : Album)
  /-- HTTP 400 with the validator's message. -/
  | validationFailed (msg : String)
  /-- HTTP 400, error "Invalid JSON" plus the decoder's message. -/
  | invalidJSON (details : String)
  deriving DecidableEq, Repr

/-- Handler `postAlbums` from `handlers.go`: decode the body, validate title,
artist and price with `required = true` in that order, then overwrite the
id with the freshly generated uuid and append. -/
def postAlbums (albums : List Album) (body : DecodeResult Album)
    (freshId : String) : CreateResult × List Album :=
  match body with
  | .err details => (.invalidJSON details, albums)
  | .ok newAlbum =>
    if validateTitle newAlbum.title true ≠ "" then
      (.validationFailed (validateTitle newAlbum.title true), albums)
    else if validateArtist newAlbum.artist true ≠ "" then
      (.validationFailed (validateArtist newAlbum.artist true), albums)
    else if validatePrice newAlbum.price true ≠ "" then
      (.validationFailed (validatePrice newAlbum.price true), albums)
    else
      let stored := { newAlbum with id := freshId }
      (.created stored, albums ++ [stored])

/-- Handler `getAlbumByID` from `handlers.go`: linear scan for the first album
with the given id; `none` models the HTTP 404 response. -/
def getAlbumByID : List Album → String → Option Album
  | [], _ => none
  | a :: rest, id => if a.id = id then some a else getAlbumByID rest id

/-- Handler `deleteAlbumByID` from `handlers.go`: linear scan, remove the first
album with the given id and return it; `none` models HTTP 404. -/
def deleteAlbumByID : List Album → String → Option Album × List Album
  | [], _ => (none, [])
  | a :: rest, id =>
    if a.id = id then
      (some a, rest)
    else
      let r := deleteAlbumByID rest id
      (r.1, a :: r.2)

/-- Response of `patchAlbumByID` (PATCH /albums/:id). -/
inductive PatchResult where
  /-- HTTP 200 with the (possibly partially) updated album. -/
  | ok (album : Album)
  /-- HTTP 400 with the validator's message. -/
  | validationFailed (msg : String)
  /-- HTTP 400, error "Invalid JSON" plus the decoder's message. -/
  | invalidJSON (details : String)
  /-- HTTP 404, "album not found". -/
  | notFound
  deriving DecidableEq, Repr

/-- The statement `albums[i].Title = update.Title`, guarded by
`update.Title != ""`, inside `patchAlbumByID`. -/
def applyTitle (a update : Album) : Album :=
  if update.title ≠ "" then { a with title := update.title } else a

/-- The statement `albums[i].Artist = update.Artist`, guarded by
`update.Artist != ""`, inside `patchAlbumByID`. -/
def applyArtist (a update : Album) : Album :=
  if update.artist ≠ "" then { a with artist := update.artist } else a

/-- The statement `albums[i].Price = update.Price`, guarded by
`update.Price > 0`, inside `patchAlbumByID`. -/
def applyPrice (a update : Album) : Album :=
  if 0 < update.price then { a with price := update.price } else a

/-- The field-update sequence inside the matched branch of
`patchAlbumByID`: for each of title, artist, price, if the payload field
is truthy, validate it with `required = false` and return the failure at
once (keeping every field already assigned in this call), else assign it
in place.  Returns the response together with the record as it stands
when the handler returns. -/
def patchFields (a update : Album) : PatchResult × Album :=
  if update.title ≠ "" ∧ validateTitle update.title false ≠ "" then
    (.validationFailed (validateTitle update.title false), a)
  else if update.artist ≠ "" ∧ validateArtist update.artist false ≠ "" then
    (.validationFailed (validateArtist update.artist false), applyTitle a update)
  else if 0 < update.price ∧ validatePrice update.price false ≠ "" then
    (.validationFailed (validatePrice update.price false),
      applyArtist (applyTitle a update) update)
  else
    (.ok (applyPrice (applyArtist (applyTitle a update) update) update),
      applyPrice (applyArtist (applyTitle a update) update) update)

/-- Handler `patchAlbumByID` from `handlers.go`: linear scan for the first album
with the given id; on a match, decode the body (the body is only decoded
after a match) and run the in-place field updates; otherwise HTTP 404. -/
def patchAlbumByID : List Album → String → DecodeResult Album → PatchResult × List Album
  | [], _, _ => (.notFound, [])
  | a :: rest, id, body =>
    if a.id = id then
      match body with
      | .err details => (.invalidJSON details, a :: rest)
      | .ok update =>
        let r := patchFields a update
        (r.1, r.2 :: rest)
    else
      let r := patchAlbumByID rest id body
      (r.1, a :: r.2)

/-- The seed collection from `resetAlbums`: the three hardcoded albums
the collection starts from. -/
def seedAlbums : List Album :=
  [{ id := "550e8400-e29b-41d4-a716-446655440001", title := "Blue Train",
     artist := "John Coltrane", price := mkRat 5699 100 },
   { id := "550e8400-e29b-41d4-a716-446655440002", title := "Jeru",
     artist := "Gerry Mulligan", price := mkRat 1799 100 },
   { id := "550e8400-e29b-41d4-a716-446655440003",
     title := "Sarah Vaughan and Clifford Brown",
     artist := "Sarah Vaughan", price := mkRat 3999 100 }]

/-- One client request against the collection, with the external inputs
(decoded body, generated uuid) made explicit. -/
inductive Op where
  | create (body : DecodeResult Album) (freshId : String)
  | getById (id : String)
  | deleteById (id : String)
  | patchById (id : String) (body : DecodeResult Album)
  deriving DecidableEq, Repr

/-- The collection state after one request. -/
def step (albums : List Album) : Op → List Album
  | .create body freshId => (postAlbums albums body freshId).2
  | .getById _ => albums
  | .deleteById id => (deleteAlbumByID albums id).2
  | .patchById id body => (patchAlbumByID albums id body).2

/-- The collection state after a sequence of requests. -/
def run (albums : List Album) : List Op → List Album
  | [] => albums
  | op :: ops => run (step albums op) ops

/-- The uuid supplied to one operation behaves like a fresh uuid: for a
create it is non-empty and not the id of any album currently stored; the
other operations generate no id. -/
def opFresh (albums : List Album) : Op → Bool
  | .create _ freshId => freshId ≠ "" && albums.all fun a => a.id ≠ freshId
  | _ => true

/-- Every generated id along a request sequence is fresh for the state
it is generated in. -/
def freshRun : List Album → List Op → Bool
  | _, [] => true
  | albums, op :: ops => opFresh albums op && freshRun (step albums op) ops

/-- The per-record part of the collection invariant: non-empty id, title
and artist lengths in [2,100], positive price. -/
def validAlbum (a : Album) : Prop :=
  a.id ≠ "" ∧ 2 ≤ a.title.length ∧ a.title.length ≤ 100 ∧
    2 ≤ a.artist.length ∧ a.artist.length ≤ 100 ∧ 0 < a.price

instance (a : Album) : Decidable (validAlbum a) := by
  unfold validAlbum; infer_instance

/-- The collection invariant: every stored album is valid and ids are
pairwise distinct. -/
def CollectionInv (albums : List Album) : Prop :=
  (∀ a ∈ albums, validAlbum a) ∧ albums.Pairwise fun a b => a.id ≠ b.id

instance (albums : List Album) : Decidable (CollectionInv albums) := by
  unfold CollectionInv; infer_instance

/-! ### Helper lemmas about the validators -/

/-- Shape of `validateTitle` in optional mode: only the length check
remains. -/
theorem validateTitle_false_eq (t : String) :
    validateTitle t false =
      if t ≠ "" ∧ (t.length < 2 ∨ t.length > 100) then
        "Title must be between 2 and 100 characters"
      else "" := by
  simp [validateTitle]

/-- Shape of `validateArtist` in optional mode: only the length check
remains. -/
theorem validateArtist_false_eq (s : String) :
    validateArtist s false =
      if s ≠ "" ∧ (s.length < 2 ∨ s.length > 100) then
        "Artist must be between 2 and 100 characters"
      else "" := by
  simp [validateArtist]

/-- Shape of `validatePrice` in optional mode: only the negativity check
remains. -/
theorem validatePrice_false_eq (p : ℚ) :
    validatePrice p false =
      if p < 0 then "Price must be greater than or equal to 0" else "" := by
  simp [validatePrice]

/-- Shape of `validateTitle` in required mode. -/
theorem validateTitle_true_eq (t : String) :
    validateTitle t true =
      if t = "" then "Title is required"
      else if t.length < 2 ∨ t.length > 100 then
        "Title must be between 2 and 100 characters"
      else "" := by
  by_cases ht : t = "" <;> simp [validateTitle, ht]

/-- Shape of `validateArtist` in required mode. -/
theorem validateArtist_true_eq (s : String) :
    validateArtist s true =
      if s = "" then "Artist is required"
      else if s.length < 2 ∨ s.length > 100 then
        "Artist must be between 2 and 100 characters"
      else "" := by
  by_cases hs : s = "" <;> simp [validateArtist, hs]

/-- Shape of `validatePrice` in required mode: the negativity branch is
subsumed. -/
theorem validatePrice_true_eq (p : ℚ) :
    validatePrice p true =
      if p ≤ 0 then "Price is required and must be greater than 0"
      else "" := by
  by_cases hp : p ≤ 0
  · simp [validatePrice, hp]
  · have h2 : ¬ p < 0 := fun hlt => hp hlt.le
    simp [validatePrice, hp, h2]

/-- A title passing required validation is non-empty with length in
[2,100]. -/
theorem validateTitle_required_ok (t : String) (h : validateTitle t true = "") :
    t ≠ "" ∧ 2 ≤ t.length ∧ t.length ≤ 100 := by
  rw [validateTitle_true_eq] at h
  split_ifs at h with h1 h2
  · simp at h
  · simp at h
  · push_neg at h2
    exact ⟨h1, h2⟩

/-- An artist passing required validation is non-empty with length in
[2,100]. -/
theorem validateArtist_required_ok (s : String) (h : validateArtist s true = "") :
    s ≠ "" ∧ 2 ≤ s.length ∧ s.length ≤ 100 := by
  rw [validateArtist_true_eq] at h
  split_ifs at h with h1 h2
  · simp at h
  · simp at h
  · push_neg at h2
    exact ⟨h1, h2⟩

/-- A price passing required validation is positive. -/
theorem validatePrice_required_ok (p : ℚ) (h : validatePrice p true = "") :
    0 < p := by
  rw [validatePrice_true_eq] at h
  split_ifs at h with h1
  · simp at h
  · exact not_le.mp h1

/-- A non-empty title passing optional validation has length in
[2,100]. -/
theorem validateTitle_optional_ok (t : String) (ht : t ≠ "")
    (h : validateTitle t false = "") : 2 ≤ t.length ∧ t.length ≤ 100 := by
  rw [validateTitle_false_eq] at h
  split_ifs at h with h1
  · simp at h
  · push_neg at h1
    exact h1 ht

/-- A non-empty artist passing optional validation has length in
[2,100]. -/
theorem validateArtist_optional_ok (s : String) (hs : s ≠ "")
    (h : validateArtist s false = "") : 2 ≤ s.length ∧ s.length ≤ 100 := by
  rw [validateArtist_false_eq] at h
  split_ifs at h with h1
  · simp at h
  · push_neg at h1
    exact h1 hs

/-- Any positive price passes optional validation. -/
theorem validatePrice_optional_pos (p : ℚ) (hp : 0 < p) :
    validatePrice p false = "" := by
  rw [validatePrice_false_eq, if_neg (not_lt.mpr hp.le)]

/-- When optional title validation fails, the message is the length
message. -/
theorem validateTitle_optional_msg (t : String)
    (h : validateTitle t false ≠ "") :
    validateTitle t false = "Title must be between 2 and 100 characters" := by
  rw [validateTitle_false_eq] at h ⊢
  split_ifs at h ⊢ with h1
  · rfl
  · exact absurd rfl h

/-- When optional artist validation fails, the message is the length
message. -/
theorem validateArtist_optional_msg (s : String)
    (h : validateArtist s false ≠ "") :
    validateArtist s false = "Artist must be between 2 and 100 characters" := by
  rw [validateArtist_false_eq] at h ⊢
  split_ifs at h ⊢ with h1
  · rfl
  · exact absurd rfl h

/-! ### Helper lemmas about the patch field updates -/

/-- Assigning the title leaves the id unchanged. -/
theorem applyTitle_id (a u : Album) : (applyTitle a u).id = a.id := by
  unfold applyTitle; split_ifs <;> rfl

/-- Assigning the artist leaves the id unchanged. -/
theorem applyArtist_id (a u : Album) : (applyArtist a u).id = a.id := by
  unfold applyArtist; split_ifs <;> rfl

/-- Assigning the price leaves the id unchanged. -/
theorem applyPrice_id (a u : Album) : (applyPrice a u).id = a.id := by
  unfold applyPrice; split_ifs <;> rfl

/-- The patch field sequence never changes the record's id. -/
theorem patchFields_id (a u : Album) : ((patchFields a u).2).id = a.id := by
  unfold patchFields
  split_ifs <;> simp [applyTitle_id, applyArtist_id, applyPrice_id]

/-- A validated title assignment preserves record validity. -/
theorem validAlbum_applyTitle (a u : Album) (h : validAlbum a)
    (hok : ¬ (u.title ≠ "" ∧ validateTitle u.title false ≠ "")) :
    validAlbum (applyTitle a u) := by
  unfold applyTitle
  split_ifs with ht
  · have hv : validateTitle u.title false = "" := by
      by_contra hv
      exact hok ⟨ht, hv⟩
    obtain ⟨l1, l2⟩ := validateTitle_optional_ok u.title ht hv
    obtain ⟨h1, _, _, h4, h5, h6⟩ := h
    exact ⟨h1, l1, l2, h4, h5, h6⟩
  · exact h

/-- A validated artist assignment preserves record validity. -/
theorem validAlbum_applyArtist (a u : Album) (h : validAlbum a)
    (hok : ¬ (u.artist ≠ "" ∧ validateArtist u.artist false ≠ "")) :
    validAlbum (applyArtist a u) := by
  unfold applyArtist
  split_ifs with hs
  · have hv : validateArtist u.artist false = "" := by
      by_contra hv
      exact hok ⟨hs, hv⟩
    obtain ⟨l1, l2⟩ := validateArtist_optional_ok u.artist hs hv
    obtain ⟨h1, h2, h3, _, _, h6⟩ := h
    exact ⟨h1, h2, h3, l1, l2, h6⟩
  · exact h

/-- A guarded price assignment preserves record validity. -/
theorem validAlbum_applyPrice (a u : Album) (h : validAlbum a) :
    validAlbum (applyPrice a u) := by
  unfold applyPrice
  split_ifs with hp
  · obtain ⟨h1, h2, h3, h4, h5, _⟩ := h
    exact ⟨h1, h2, h3, h4, h5, hp⟩
  · exact h

/-- The patch field sequence keeps the matched record valid, also on the
partially-mutated failure paths. -/
theorem patchFields_valid (a u : Album) (h : validAlbum a) :
    validAlbum (patchFields a u).2 := by
  unfold patchFields
  split_ifs with c1 c2 c3
  · exact h
  · exact validAlbum_applyTitle a u h c1
  · exact validAlbum_applyArtist _ u (validAlbum_applyTitle a u h c1) c2
  · exact validAlbum_applyPrice _ u
      (validAlbum_applyArtist _ u (validAlbum_applyTitle a u h c1) c2)

/-- The patch field sequence is idempotent: every branch condition
depends only on the payload, and every assignment writes an absolute
value. -/
theorem patchFields_idem (a u : Album) :
    patchFields (patchFields a u).2 u = patchFields a u := by
  obtain ⟨i, t, r, p⟩ := a
  unfold patchFields applyTitle applyArtist applyPrice
  split_ifs <;> rfl

/-- With an all-falsy payload every field update is skipped and the
matched record is returned unchanged. -/
theorem patchFields_noop (a u : Album) (ht : u.title = "")
    (ha : u.artist = "") (hp : u.price ≤ 0) :
    patchFields a u = (.ok a, a) := by
  simp [patchFields, applyTitle, applyArtist, applyPrice, ht, ha, not_lt.mpr hp]

/-! ### Helper lemmas about the collection operations -/

/-- Running `postAlbums` on a fully valid candidate: append the candidate with
its id overwritten by the generated uuid. -/
theorem postAlbums_ok_eq (albums : List Album) (c : Album) (freshId : String)
    (ht : validateTitle c.title true = "")
    (ha : validateArtist c.artist true = "")
    (hp : validatePrice c.price true = "") :
    postAlbums albums (.ok c) freshId =
      (.created { c with id := freshId }, albums ++ [{ c with id := freshId }]) := by
  unfold postAlbums
  dsimp only
  rw [ht, ha, hp]
  simp

/-- Deletion returns a sublist of the collection. -/
theorem deleteAlbumByID_sublist (albums : List Album) (id : String) :
    List.Sublist (deleteAlbumByID albums id).2 albums := by
  induction albums with
  | nil => simp [deleteAlbumByID]
  | cons a rest ih =>
    by_cases hid : a.id = id
    · simp only [deleteAlbumByID, if_pos hid]
      exact (List.Sublist.refl rest).cons a
    · simp only [deleteAlbumByID, if_neg hid]
      exact List.Sublist.cons₂ a ih

/-- Deleting an absent id is a no-op returning the not-found response. -/
theorem deleteAlbumByID_notFound (albums : List Album) (id : String)
    (h : ∀ a ∈ albums, a.id ≠ id) :
    deleteAlbumByID albums id = (none, albums) := by
  induction albums with
  | nil => rfl
  | cons a rest ih =>
    have hne := h a (by simp)
    have ihr := ih fun b hb => h b (by simp [hb])
    simp only [deleteAlbumByID, if_neg hne, ihr]

/-- Deleting a present id removes exactly the first matching record. -/
theorem deleteAlbumByID_found (albums : List Album) (id : String)
    (h : ∃ a ∈ albums, a.id = id) :
    ∃ pre r post, albums = pre ++ r :: post ∧ (∀ b ∈ pre, b.id ≠ id) ∧
      r.id = id ∧ deleteAlbumByID albums id = (some r, pre ++ post) := by
  induction albums with
  | nil => simp at h
  | cons a rest ih =>
    by_cases hid : a.id = id
    · exact ⟨[], a, rest, by simp, by simp, hid, by simp [deleteAlbumByID, hid]⟩
    · obtain ⟨b, hb, hbid⟩ := h
      rcases List.mem_cons.mp hb with rfl | hbr
      · exact absurd hbid hid
      · obtain ⟨pre, r, post, he, hpre, hr, hdel⟩ := ih ⟨b, hbr, hbid⟩
        refine ⟨a :: pre, r, post, by simp [he], ?_, hr, ?_⟩
        · intro c hc
          rcases List.mem_cons.mp hc with rfl | hcp
          · exact hid
          · exact hpre c hcp
        · simp only [deleteAlbumByID, if_neg hid, hdel, List.cons_append]

/-- Looking up an absent id fails. -/
theorem getAlbumByID_notFound (albums : List Album) (id : String)
    (h : ∀ a ∈ albums, a.id ≠ id) :
    getAlbumByID albums id = none := by
  induction albums with
  | nil => rfl
  | cons a rest ih =>
    have hne := h a (by simp)
    simp only [getAlbumByID, if_neg hne]
    exact ih fun b hb => h b (by simp [hb])

/-- Looking up a freshly appended record finds it when its id matches
nothing before it. -/
theorem getAlbumByID_append (albums : List Album) (x : Album)
    (h : ∀ a ∈ albums, a.id ≠ x.id) :
    getAlbumByID (albums ++ [x]) x.id = some x := by
  induction albums with
  | nil => simp [getAlbumByID]
  | cons a rest ih =>
    have hne : a.id ≠ x.id := h a (by simp)
    simp only [List.cons_append, getAlbumByID, if_neg hne]
    exact ih fun b hb => h b (by simp [hb])

/-- Patching an absent id is a no-op returning the not-found response,
whatever the request body holds. -/
theorem patchAlbumByID_notFound (albums : List Album) (id : String)
    (body : DecodeResult Album) (h : ∀ a ∈ albums, a.id ≠ id) :
    patchAlbumByID albums id body = (.notFound, albums) := by
  induction albums with
  | nil => rfl
  | cons a rest ih =>
    have hne := h a (by simp)
    have ihr := ih fun b hb => h b (by simp [hb])
    simp only [patchAlbumByID, if_neg hne, ihr]

/-- Patching a present id with an undecodable body reports the decoder
error and leaves the collection unchanged. -/
theorem patchAlbumByID_err_found (albums : List Album) (id : String)
    (d : String) (h : ∃ a ∈ albums, a.id = id) :
    patchAlbumByID albums id (.err d) = (.invalidJSON d, albums) := by
  induction albums with
  | nil => simp at h
  | cons a rest ih =>
    by_cases hid : a.id = id
    · simp [patchAlbumByID, hid]
    · obtain ⟨b, hb, hbid⟩ := h
      rcases List.mem_cons.mp hb with rfl | hbr
      · exact absurd hbid hid
      · have ihr := ih ⟨b, hbr, hbid⟩
        simp only [patchAlbumByID, if_neg hid, ihr]

/-- Patching a present id applies the field sequence to exactly the
first matching record. -/
theorem patchAlbumByID_ok_found (albums : List Album) (id : String)
    (h : ∃ a ∈ albums, a.id = id) :
    ∃ pre r post, albums = pre ++ r :: post ∧ (∀ b ∈ pre, b.id ≠ id) ∧
      r.id = id ∧ ∀ u : Album, patchAlbumByID albums id (.ok u) =
        ((patchFields r u).1, pre ++ (patchFields r u).2 :: post) := by
  induction albums with
  | nil => simp at h
  | cons a rest ih =>
    by_cases hid : a.id = id
    · exact ⟨[], a, rest, by simp, by simp, hid,
        fun u => by simp [patchAlbumByID, hid]⟩
    · obtain ⟨b, hb, hbid⟩ := h
      rcases List.mem_cons.mp hb with rfl | hbr
      · exact absurd hbid hid
      · obtain ⟨pre, r, post, he, hpre, hr, hpatch⟩ := ih ⟨b, hbr, hbid⟩
        refine ⟨a :: pre, r, post, by simp [he], ?_, hr, ?_⟩
        · intro c hc
          rcases List.mem_cons.mp hc with rfl | hcp
          · exact hid
          · exact hpre c hcp
        · intro u
          simp only [patchAlbumByID, if_neg hid, hpatch u, List.cons_append]

/-- Patching never changes the sequence of stored ids. -/
theorem patchAlbumByID_ids (albums : List Album) (id : String)
    (body : DecodeResult Album) :
    ((patchAlbumByID albums id body).2).map Album.id = albums.map Album.id := by
  induction albums with
  | nil => rfl
  | cons a rest ih =>
    by_cases hid : a.id = id
    · cases body with
      | err d => simp [patchAlbumByID, hid]
      | ok u => simp [patchAlbumByID, hid, patchFields_id]
    · simp [patchAlbumByID, hid, ih]

/-- Patching keeps every stored record valid. -/
theorem patchAlbumByID_valid (albums : List Album) (id : String)
    (body : DecodeResult Album) (h : ∀ a ∈ albums, validAlbum a) :
    ∀ a ∈ (patchAlbumByID albums id body).2, validAlbum a := by
  induction albums with
  | nil => simp [patchAlbumByID]
  | cons a rest ih =>
    by_cases hid : a.id = id
    · cases body with
      | err d =>
        simpa [patchAlbumByID, hid] using h
      | ok u =>
        simp only [patchAlbumByID, if_pos hid]
        intro b hb
        rcases List.mem_cons.mp hb with rfl | hbr
        · exact patchFields_valid a u (h a (by simp))
        · exact h b (by simp [hbr])
    · simp only [patchAlbumByID, if_neg hid]
      intro b hb
      rcases List.mem_cons.mp hb with rfl | hbr
      · exact h b (by simp)
      · exact ih (fun c hc => h c (by simp [hc])) b hbr

/-- A patch applied a second time with the same id and body changes
nothing: the response and the collection repeat. -/
theorem patchAlbumByID_idem (albums : List Album) (id : String)
    (body : DecodeResult Album) :
    patchAlbumByID (patchAlbumByID albums id body).2 id body =
      patchAlbumByID albums id body := by
  induction albums with
  | nil => rfl
  | cons a rest ih =>
    by_cases hid : a.id = id
    · cases body with
      | err d => simp [patchAlbumByID, hid]
      | ok u =>
        have hid2 : (patchFields a u).2.id = id := by
          rw [patchFields_id]; exact hid
        simp [patchAlbumByID, hid, hid2, patchFields_idem]
    · simp [patchAlbumByID, hid, ih]

/-! ### Invariant preservation -/

/-- Create preserves the collection invariant when the generated id is
non-empty and fresh. -/
theorem postAlbums_inv (albums : List Album) (body : DecodeResult Album)
    (freshId : String) (hInv : CollectionInv albums) (hne : freshId ≠ "")
    (hfresh : ∀ a ∈ albums, a.id ≠ freshId) :
    CollectionInv (postAlbums albums body freshId).2 := by
  cases body with
  | err d => exact hInv
  | ok c =>
    by_cases h1 : validateTitle c.title true = ""
    · by_cases h2 : validateArtist c.artist true = ""
      · by_cases h3 : validatePrice c.price true = ""
        · rw [postAlbums_ok_eq albums c freshId h1 h2 h3]
          obtain ⟨hval, hpw⟩ := hInv
          constructor
          · intro b hb
            rcases List.mem_append.mp hb with hl | hr
            · exact hval b hl
            · have hb2 : b = { c with id := freshId } := by simpa using hr
              subst hb2
              obtain ⟨lt1, lt2⟩ := (validateTitle_required_ok c.title h1).2
              obtain ⟨la1, la2⟩ := (validateArtist_required_ok c.artist h2).2
              exact ⟨hne, lt1, lt2, la1, la2, validatePrice_required_ok c.price h3⟩
          · rw [List.pairwise_append]
            refine ⟨hpw, List.pairwise_singleton _ _, ?_⟩
            intro b hb x hx
            have hx2 : x = { c with id := freshId } := by simpa using hx
            subst hx2
            exact hfresh b hb
        · have : postAlbums albums (.ok c) freshId =
              (.validationFailed (validatePrice c.price true), albums) := by
            unfold postAlbums
            dsimp only
            rw [h1, h2]
            simp [h3]
          rw [this]
          exact hInv
      · have : postAlbums albums (.ok c) freshId =
            (.validationFailed (validateArtist c.artist true), albums) := by
          unfold postAlbums
          dsimp only
          rw [h1]
          simp [h2]
        rw [this]
        exact hInv
    · have : postAlbums albums (.ok c) freshId =
          (.validationFailed (validateTitle c.title true), albums) := by
        unfold postAlbums
        dsimp only
        simp [h1]
      rw [this]
      exact hInv

/-- Delete preserves the collection invariant. -/
theorem deleteAlbumByID_inv (albums : List Album) (id : String)
    (hInv : CollectionInv albums) :
    CollectionInv (deleteAlbumByID albums id).2 := by
  have hsub := deleteAlbumByID_sublist albums id
  exact ⟨fun a ha => hInv.1 a (hsub.subset ha), hInv.2.sublist hsub⟩

/-- Patch preserves the collection invariant. -/
theorem patchAlbumByID_inv (albums : List Album) (id : String)
    (body : DecodeResult Album) (hInv : CollectionInv albums) :
    CollectionInv (patchAlbumByID albums id body).2 := by
  refine ⟨patchAlbumByID_valid albums id body hInv.1, ?_⟩
  have hmap : (((patchAlbumByID albums id body).2).map Album.id).Pairwise
      (fun x y => x ≠ y) := by
    rw [patchAlbumByID_ids]
    exact List.pairwise_map.mpr hInv.2
  exact List.pairwise_map.mp hmap

/-- One request preserves the collection invariant when its generated id
(if any) is fresh. -/
theorem step_inv (albums : List Album) (op : Op) (hInv : CollectionInv albums)
    (hf : opFresh albums op = true) : CollectionInv (step albums op) := by
  cases op with
  | create body freshId =>
    simp only [opFresh, Bool.and_eq_true, decide_eq_true_eq, List.all_eq_true] at hf
    exact postAlbums_inv albums body freshId hInv hf.1 fun a ha => hf.2 a ha
  | getById id => exact hInv
  | deleteById id => exact deleteAlbumByID_inv albums id hInv
  | patchById id body => exact patchAlbumByID_inv albums id body hInv

/-- A whole request sequence preserves the collection invariant when all
its generated ids are fresh. -/
theorem run_inv (ops : List Op) (albums : List Album)
    (hInv : CollectionInv albums) (hf : freshRun albums ops = true) :
    CollectionInv (run albums ops) := by
  induction ops generalizing albums with
  | nil => exact hInv
  | cons op rest ih =>
    simp only [freshRun, Bool.and_eq_true] at hf
    exact ih (step albums op) (step_inv albums op hInv hf.1) hf.2

/-- The seed collection satisfies the collection invariant. -/
theorem seedAlbums_inv : CollectionInv seedAlbums := by decide

/-- A failing patch response carries a title or artist length message:
the price branch cannot produce it. -/
theorem patchFields_fail_msg (a u : Album) (msg : String)
    (h : (patchFields a u).1 = .validationFailed msg) :
    msg = "Title must be between 2 and 100 characters" ∨
    msg = "Artist must be between 2 and 100 characters" := by
  unfold patchFields at h
  split_ifs at h with c1 c2 c3
  · have h2 : validateTitle u.title false = msg := by simpa using h
    exact Or.inl (h2.symm.trans (validateTitle_optional_msg u.title c1.2))
  · have h2 : validateArtist u.artist false = msg := by simpa using h
    exact Or.inr (h2.symm.trans (validateArtist_optional_msg u.artist c2.2))
  · exact absurd (validatePrice_optional_pos u.price c3.1) c3.2

/-- A failing patch response over a collection carries a title or artist
length message. -/
theorem patchAlbumByID_fail_msg (albums : List Album) (id : String)
    (body : DecodeResult Album) (msg : String)
    (h : (patchAlbumByID albums id body).1 = .validationFailed msg) :
    msg = "Title must be between 2 and 100 characters" ∨
    msg = "Artist must be between 2 and 100 characters" := by
  induction albums with
  | nil => simp [patchAlbumByID] at h
  | cons a rest ih =>
    by_cases hid : a.id = id
    · cases body with
      | err d => simp [patchAlbumByID, hid] at h
      | ok u =>
        simp only [patchAlbumByID, if_pos hid] at h
        exact patchFields_fail_msg a u msg h
    · simp only [patchAlbumByID, if_neg hid] at h
      exact ih h

/-! ### Claims -/

/-- C1: starting from the seed collection of three albums, if every id
generated along a request sequence is fresh (non-empty and not already
stored), then after any sequence of Create, GetByID, DeleteByID and
PatchByID requests every stored album has a non-empty id, all ids are
pairwise distinct, every title and artist has length in [2,100], and
every price is positive. -/
theorem c1_collection_invariant (ops : List Op)
    (hf : freshRun seedAlbums ops = true) :
    CollectionInv (run seedAlbums ops) :=
  run_inv ops seedAlbums seedAlbums_inv hf

/-- Witness for C1 on a concrete four-request trace. -/
theorem c1_collection_invariant_witness :
    freshRun seedAlbums
      [Op.create (.ok { id := "ignored", title := "Kind of Blue",
                        artist := "Miles Davis", price := mkRat 4999 100 }) "id-4",
       Op.patchById "550e8400-e29b-41d4-a716-446655440002"
          (.ok { id := "", title := "Updated Title", artist := "", price := 0 }),
       Op.deleteById "550e8400-e29b-41d4-a716-446655440001",
       Op.getById "id-4"] = true ∧
    CollectionInv (run seedAlbums
      [Op.create (.ok { id := "ignored", title := "Kind of Blue",
                        artist := "Miles Davis", price := mkRat 4999 100 }) "id-4",
       Op.patchById "550e8400-e29b-41d4-a716-446655440002"
          (.ok { id := "", title := "Updated Title", artist := "", price := 0 }),
       Op.deleteById "550e8400-e29b-41d4-a716-446655440001",
       Op.getById "id-4"]) :=
  ⟨by decide, c1_collection_invariant _ (by decide)⟩

/-- C2: Patch is not transactional: there are a collection, a stored id
and a payload (valid new title, one-character artist) for which the
patch fails validation while the matched record's title has already been
overwritten, so the collection after the failed call differs from the
collection before it. -/
theorem c2_patch_not_transactional :
    ∃ (albums : List Album) (id : String) (u : Album) (msg : String),
      (∃ a ∈ albums, a.id = id) ∧
      (patchAlbumByID albums id (.ok u)).1 = .validationFailed msg ∧
      (patchAlbumByID albums id (.ok u)).2 ≠ albums ∧
      (getAlbumByID (patchAlbumByID albums id (.ok u)).2 id).map Album.title =
        some u.title := by
  refine ⟨seedAlbums, "550e8400-e29b-41d4-a716-446655440001",
    { id := "", title := "Updated Title", artist := "X", price := 0 },
    "Artist must be between 2 and 100 characters", ?_, ?_, ?_, ?_⟩ <;> decide

/-- C3: Create on a candidate passing all three required validators
appends exactly one record at the end, carrying the candidate's title,
artist and price, with the candidate's id overwritten by the freshly
generated (non-empty) id, and returns the stored record. -/
theorem c3_create_success (albums : List Album) (c : Album) (freshId : String)
    (hne : freshId ≠ "") (ht : validateTitle c.title true = "")
    (ha : validateArtist c.artist true = "")
    (hp : validatePrice c.price true = "") :
    postAlbums albums (.ok c) freshId =
      (.created { c with id := freshId }, albums ++ [{ c with id := freshId }]) ∧
    ({ c with id := freshId } : Album).id = freshId ∧
    ({ c with id := freshId } : Album).id ≠ "" :=
  ⟨postAlbums_ok_eq albums c freshId ht ha hp, rfl, hne⟩

/-- Witness for C3 on the seed collection. -/
theorem c3_create_success_witness :
    postAlbums seedAlbums
      (.ok { id := "client-supplied", title := "Kind of Blue",
             artist := "Miles Davis", price := mkRat 4999 100 }) "id-4" =
      (.created { id := "id-4", title := "Kind of Blue",
                  artist := "Miles Davis", price := mkRat 4999 100 },
        seedAlbums ++ [{ id := "id-4", title := "Kind of Blue",
                         artist := "Miles Davis", price := mkRat 4999 100 }]) :=
  (c3_create_success seedAlbums
    { id := "client-supplied", title := "Kind of Blue",
      artist := "Miles Davis", price := mkRat 4999 100 } "id-4"
    (by decide) (by decide) (by decide) (by decide)).1

/-- C4: Create on a candidate failing at least one required validator
returns the first failing message in the order title, artist, price, and
leaves the collection unchanged. -/
theorem c4_create_validation_failure (albums : List Album) (c : Album)
    (freshId : String)
    (h : ¬ (validateTitle c.title true = "" ∧ validateArtist c.artist true = "" ∧
      validatePrice c.price true = "")) :
    postAlbums albums (.ok c) freshId =
      (.validationFailed
        (if validateTitle c.title true ≠ "" then validateTitle c.title true
         else if validateArtist c.artist true ≠ "" then validateArtist c.artist true
         else validatePrice c.price true), albums) := by
  unfold postAlbums
  dsimp only
  by_cases h1 : validateTitle c.title true = ""
  · by_cases h2 : validateArtist c.artist true = ""
    · by_cases h3 : validatePrice c.price true = ""
      · exact absurd ⟨h1, h2, h3⟩ h
      · simp [h1, h2, h3]
    · simp [h1, h2]
  · simp [h1]

/-- Witness for C4: a one-character title is rejected with the title
message and the seed collection is untouched. -/
theorem c4_create_validation_failure_witness :
    postAlbums seedAlbums
      (.ok { id := "", title := "A", artist := "", price := 0 }) "id-9" =
      (.validationFailed "Title must be between 2 and 100 characters",
        seedAlbums) := by
  have h := c4_create_validation_failure seedAlbums
    { id := "", title := "A", artist := "", price := 0 } "id-9" (by decide)
  rw [h]
  decide

/-- C5: DeleteByID removes exactly the first record carrying the id,
keeping every other record in order, and returns it; on an absent id it
reports not-found and changes nothing. -/
theorem c5_delete (albums : List Album) (id : String) :
    ((∃ a ∈ albums, a.id = id) →
      ∃ pre r post, albums = pre ++ r :: post ∧ (∀ b ∈ pre, b.id ≠ id) ∧
        r.id = id ∧ deleteAlbumByID albums id = (some r, pre ++ post)) ∧
    ((∀ a ∈ albums, a.id ≠ id) → deleteAlbumByID albums id = (none, albums)) :=
  ⟨deleteAlbumByID_found albums id, deleteAlbumByID_notFound albums id⟩

/-- Witness for C5: deleting the second seed album, and deleting an
absent id. -/
theorem c5_delete_witness :
    (∃ pre r post, seedAlbums = pre ++ r :: post ∧
      (∀ b ∈ pre, b.id ≠ "550e8400-e29b-41d4-a716-446655440002") ∧
      r.id = "550e8400-e29b-41d4-a716-446655440002" ∧
      deleteAlbumByID seedAlbums "550e8400-e29b-41d4-a716-446655440002" =
        (some r, pre ++ post)) ∧
    deleteAlbumByID seedAlbums "no-such-id" = (none, seedAlbums) :=
  ⟨(c5_delete seedAlbums "550e8400-e29b-41d4-a716-446655440002").1 (by decide),
   (c5_delete seedAlbums "no-such-id").2 (by decide)⟩

/-- C6 counterexample: a PATCH whose body fails decoding but whose id
matches no record returns not-found, not the decode failure, so decode
failure is not reported regardless of record existence. -/
theorem c6_counterexample :
    (patchAlbumByID seedAlbums "no-such-id" (.err "unexpected EOF")).1 =
      PatchResult.notFound ∧
    (patchAlbumByID seedAlbums "no-such-id" (.err "unexpected EOF")).1 ≠
      PatchResult.invalidJSON "unexpected EOF" := by
  decide

/-- C6 (amended): a POST with an undecodable body always reports the
decode failure and changes nothing; a PATCH with an undecodable body
reports the decode failure (and changes nothing) when a record with the
id exists, and reports not-found (changing nothing) when none does. -/
theorem c6_decode_failure (albums : List Album) (id : String) (d : String) :
    (∀ freshId, postAlbums albums (.err d) freshId = (.invalidJSON d, albums)) ∧
    ((∃ a ∈ albums, a.id = id) →
      patchAlbumByID albums id (.err d) = (.invalidJSON d, albums)) ∧
    ((∀ a ∈ albums, a.id ≠ id) →
      patchAlbumByID albums id (.err d) = (.notFound, albums)) :=
  ⟨fun _ => rfl, patchAlbumByID_err_found albums id d,
    patchAlbumByID_notFound albums id (.err d)⟩

/-- Witness for the amended C6 on the seed collection. -/
theorem c6_decode_failure_witness :
    postAlbums seedAlbums (.err "bad body") "id-7" =
      (.invalidJSON "bad body", seedAlbums) ∧
    patchAlbumByID seedAlbums "550e8400-e29b-41d4-a716-446655440001"
      (.err "bad body") = (.invalidJSON "bad body", seedAlbums) ∧
    patchAlbumByID seedAlbums "no-such-id" (.err "bad body") =
      (.notFound, seedAlbums) :=
  ⟨(c6_decode_failure seedAlbums "550e8400-e29b-41d4-a716-446655440001"
      "bad body").1 "id-7",
   (c6_decode_failure seedAlbums "550e8400-e29b-41d4-a716-446655440001"
      "bad body").2.1 (by decide),
   (c6_decode_failure seedAlbums "no-such-id" "bad body").2.2 (by decide)⟩

/-- C7 counterexample: no collection, id and payload make a repeated
patch differ from a single one — the claimed non-idempotence never
occurs. -/
theorem c7_counterexample :
    ¬ ∃ (albums : List Album) (id : String) (body : DecodeResult Album),
      patchAlbumByID (patchAlbumByID albums id body).2 id body ≠
        patchAlbumByID albums id body := by
  rintro ⟨albums, id, body, hne⟩
  exact hne (patchAlbumByID_idem albums id body)

/-- C7 (amended): PatchByID is idempotent: repeating a patch with the
same id and body yields the same response and the same collection as
performing it once. -/
theorem c7_patch_idempotent (albums : List Album) (id : String)
    (body : DecodeResult Album) :
    patchAlbumByID (patchAlbumByID albums id body).2 id body =
      patchAlbumByID albums id body :=
  patchAlbumByID_idem albums id body

/-- C8: a patch whose payload has empty title, empty artist and price
≤ 0 skips every field update: it succeeds, returns the first matched
record, and leaves the collection unchanged. -/
theorem c8_patch_noop (albums : List Album) (id : String) (u : Album)
    (hmem : ∃ a ∈ albums, a.id = id) (ht : u.title = "")
    (ha : u.artist = "") (hp : u.price ≤ 0) :
    ∃ pre r post, albums = pre ++ r :: post ∧ (∀ b ∈ pre, b.id ≠ id) ∧
      r.id = id ∧ patchAlbumByID albums id (.ok u) = (.ok r, albums) := by
  obtain ⟨pre, r, post, he, hpre, hr, hpatch⟩ := patchAlbumByID_ok_found albums id hmem
  refine ⟨pre, r, post, he, hpre, hr, ?_⟩
  rw [hpatch u, patchFields_noop r u ht ha hp]
  simp [he]

/-- Witness for C8: an all-falsy patch of the third seed album. -/
theorem c8_patch_noop_witness :
    ∃ pre r post, seedAlbums = pre ++ r :: post ∧
      (∀ b ∈ pre, b.id ≠ "550e8400-e29b-41d4-a716-446655440003") ∧
      r.id = "550e8400-e29b-41d4-a716-446655440003" ∧
      patchAlbumByID seedAlbums "550e8400-e29b-41d4-a716-446655440003"
        (.ok { id := "", title := "", artist := "", price := 0 }) =
        (.ok r, seedAlbums) :=
  c8_patch_noop seedAlbums "550e8400-e29b-41d4-a716-446655440003"
    { id := "", title := "", artist := "", price := 0 }
    (by decide) rfl rfl (by decide)

/-- C9: a Create on a candidate passing required validation, with a
generated id matching no stored record, is found again by GetByID on the
returned id, with the candidate's title, artist and price. -/
theorem c9_roundtrip (albums : List Album) (c : Album) (freshId : String)
    (ht : validateTitle c.title true = "")
    (ha : validateArtist c.artist true = "")
    (hp : validatePrice c.price true = "")
    (hfresh : ∀ a ∈ albums, a.id ≠ freshId) :
    ∃ stored, (postAlbums albums (.ok c) freshId).1 = .created stored ∧
      getAlbumByID (postAlbums albums (.ok c) freshId).2 stored.id = some stored ∧
      stored.title = c.title ∧ stored.artist = c.artist ∧
      stored.price = c.price := by
  refine ⟨{ c with id := freshId }, ?_, ?_, rfl, rfl, rfl⟩
  · rw [postAlbums_ok_eq albums c freshId ht ha hp]
  · rw [postAlbums_ok_eq albums c freshId ht ha hp]
    exact getAlbumByID_append albums _ hfresh

/-- Witness for C9 on the seed collection. -/
theorem c9_roundtrip_witness :
    ∃ stored, (postAlbums seedAlbums
        (.ok { id := "old-id", title := "Kind of Blue",
               artist := "Miles Davis", price := mkRat 4999 100 }) "id-4").1 =
        .created stored ∧
      getAlbumByID (postAlbums seedAlbums
        (.ok { id := "old-id", title := "Kind of Blue",
               artist := "Miles Davis", price := mkRat 4999 100 }) "id-4").2
        stored.id = some stored ∧
      stored.title = "Kind of Blue" ∧ stored.artist = "Miles Davis" ∧
      stored.price = mkRat 4999 100 :=
  c9_roundtrip seedAlbums
    { id := "old-id", title := "Kind of Blue", artist := "Miles Davis",
      price := mkRat 4999 100 } "id-4"
    (by decide) (by decide) (by decide) (by decide)

/-- C10: the price-validation error branch of PatchByID is unreachable:
optional price validation accepts every positive price, and a failing
patch never carries either price message. -/
theorem c10_price_branch_unreachable :
    (∀ p : ℚ, 0 < p → validatePrice p false = "") ∧
    (∀ (albums : List Album) (id : String) (body : DecodeResult Album)
      (msg : String),
      (patchAlbumByID albums id body).1 = .validationFailed msg →
        msg ≠ "Price is required and must be greater than 0" ∧
        msg ≠ "Price must be greater than or equal to 0") := by
  refine ⟨validatePrice_optional_pos, ?_⟩
  intro albums id body msg h
  rcases patchAlbumByID_fail_msg albums id body msg h with h1 | h1 <;>
    subst h1 <;> exact ⟨by decide, by decide⟩

/-- Witness for C10: price 1 passes optional validation, and a concrete
failing patch carries the title message, not a price message. -/
theorem c10_price_branch_unreachable_witness :
    validatePrice 1 false = "" ∧
    ("Title must be between 2 and 100 characters" ≠
        "Price is required and must be greater than 0" ∧
      "Title must be between 2 and 100 characters" ≠
        "Price must be greater than or equal to 0") :=
  ⟨c10_price_branch_unreachable.1 1 (by decide),
   c10_price_branch_unreachable.2 seedAlbums
     "550e8400-e29b-41d4-a716-446655440001"
     (.ok { id := "", title := "A", artist := "", price := 0 })
     "Title must be between 2 and 100 characters" (by decide)⟩

end AlbumApi
